import Mathlib

/-
Verification development for the ResearchRender pipeline
(src/cached_code_generation.py and src/app.py).

Modelling conventions (shallow embedding):
* Wall-clock time is a rational number of seconds.  `time.sleep(d)` advances
  the clock by `d`; an external call itself takes zero model time.
* The md5 hex digest (hashlib.md5) is a library primitive; it is modelled as
  an arbitrary parameter `md5 : String -> String` threaded through every
  function that hashes, exactly where the source calls `get_content_hash` /
  `hashlib.md5(...).hexdigest()`.
* The MongoDB cache collection is a list of (content_hash, type, data)
  triples together with a `failing` flag: when the flag is set, every store
  operation raises, which the source catches (`load_cache` returns None,
  `save_cache` swallows).
* The two external generative services are oracles indexed by the global
  number of calls already made to that service, so that call-count
  instrumentation is part of the state (`World.geminiCalls`,
  `World.groqCalls`).  Exceptions raised by the Gemini client are the
  constructors of `SvcResult`; any exception from the Groq client is
  `GroqResult.failed` (the source catches them all uniformly).
* `World.retrySleeps` logs every explicit `time.sleep(retry_delay)` executed
  by the retry loop of `convert_paper_to_steps` (source line 173); the
  sleeps performed inside `rate_limit` advance the clock but are not logged
  there, mirroring that they are a different call site.
* Python truthiness of an optional string (`if cached_steps:`) is
  `truthyStr`: `None` and the empty string are falsy.
* In app.py the `code` field of a stored record is dynamically typed (the
  resume path stores the tuple returned by `process_paper`); `PyVal` embeds
  the values that can actually flow there: None, a string, or a pair.
-/

/-- Per-service rate-limit state: the two module-level globals
`last_gemini_request` and `last_groq_request`. -/
structure RateState where
  last_gemini_request : ℚ
  last_groq_request : ℚ
  deriving Repr, DecidableEq

/-- `GEMINI_RATE_LIMIT = 15` requests per minute. -/
def GEMINI_RATE_LIMIT : ℚ := 15

/-- `GROQ_RATE_LIMIT = 30` requests per minute. -/
def GROQ_RATE_LIMIT : ℚ := 30

/-- `rate_limit(api_type)` from cached_code_generation.py.  Input: the
current wall-clock time and the two last-request timestamps.  Output: the
time slept and the updated timestamps.  After sleeping, the source stores
`time.time()` (= current time + sleep) as the new timestamp. -/
def rate_limit (api_type : String) (current_time : ℚ) (s : RateState) : ℚ × RateState :=
  if api_type = "gemini" then
    if current_time - s.last_gemini_request < 60 / GEMINI_RATE_LIMIT then
      let sleep_time := 60 / GEMINI_RATE_LIMIT - (current_time - s.last_gemini_request)
      (sleep_time, { s with last_gemini_request := current_time + sleep_time })
    else
      (0, { s with last_gemini_request := current_time })
  else if api_type = "groq" then
    if current_time - s.last_groq_request < 60 / GROQ_RATE_LIMIT then
      let sleep_time := 60 / GROQ_RATE_LIMIT - (current_time - s.last_groq_request)
      (sleep_time, { s with last_groq_request := current_time + sleep_time })
    else
      (0, { s with last_groq_request := current_time })
  else
    (0, s)

/-- The MongoDB `cache` collection: documents `(content_hash, type, data)`
plus a flag saying whether the underlying store currently raises on every
operation. -/
structure CacheDB where
  entries : List (String × String × String)
  failing : Bool
  deriving Repr, DecidableEq

/-- `cache_collection.find_one({"content_hash": h, "type": ty})`, projected
to the `data` field. -/
def find_one (db : CacheDB) (content_hash cache_type : String) : Option String :=
  (db.entries.find? (fun e => e.1 == content_hash && e.2.1 == cache_type)).map
    (fun e => e.2.2)

/-- `load_cache` from cached_code_generation.py: a raising store is caught
and turned into `None`, otherwise the stored `data` (or `None` on miss). -/
def load_cache (db : CacheDB) (content_hash cache_type : String) : Option String :=
  if db.failing then Option.none else find_one db content_hash cache_type

/-- `update_one(..., upsert=True)`: replace the first document matching the
key, or append a new document. -/
def upsert_one : List (String × String × String) → String → String → String →
    List (String × String × String)
  | [], content_hash, cache_type, data => [(content_hash, cache_type, data)]
  | e :: es, content_hash, cache_type, data =>
    if e.1 == content_hash && e.2.1 == cache_type then
      (content_hash, cache_type, data) :: es
    else
      e :: upsert_one es content_hash cache_type data

/-- `save_cache` from cached_code_generation.py: a raising store is caught
and swallowed (the DB is returned unchanged), otherwise upsert. -/
def save_cache (db : CacheDB) (content_hash cache_type data : String) : CacheDB :=
  if db.failing then db
  else { db with entries := upsert_one db.entries content_hash cache_type data }

/-- Python truthiness of an `Optional[str]`: `None` and `""` are falsy. -/
def truthyStr : Option String → Bool
  | some s => s != ""
  | Option.none => false

/-- `get_content_hash(content)`: md5 hex digest of the content, with the
md5 primitive abstracted as a parameter. -/
def get_content_hash (md5 : String → String) (content : String) : String :=
  md5 content

/-- Global instrumented state threaded through the pipeline: cache store,
rate-limit timestamps, wall clock, per-service external-call counters, and
the log of `time.sleep(retry_delay)` calls made by the retry loop. -/
structure World where
  db : CacheDB
  rate : RateState
  now : ℚ
  geminiCalls : Nat
  groqCalls : Nat
  retrySleeps : List ℚ
  deriving Repr, DecidableEq

/-- Run `rate_limit(api_type)` against the world: the clock advances by the
slept time and the timestamps are updated. -/
def rateLimitW (api_type : String) (w : World) : World :=
  let r := rate_limit api_type w.now w.rate
  { w with now := w.now + r.1, rate := r.2 }

/-- `time.sleep(d)` in the retry loop: advances the clock and logs `d`. -/
def retrySleepW (d : ℚ) (w : World) : World :=
  { w with now := w.now + d, retrySleeps := w.retrySleeps ++ [d] }

/-- Outcome of one Gemini `generate_content` call: a text completion or one
of the exceptions distinguished by the source's retry loop. -/
inductive SvcResult where
  | ok (text : String)
  | internalServerError
  | resourceExhausted
  | otherError
  deriving Repr, DecidableEq

/-- The exception that escapes `convert_paper_to_steps`. -/
inductive GenException where
  | internalServerError
  | resourceExhausted
  | other
  deriving Repr, DecidableEq

/-- `max_retries = 3` (cached_code_generation.py line 152). -/
def max_retries : Nat := 3

/-- `retry_delay = 5` seconds (cached_code_generation.py line 153). -/
def retry_delay : ℚ := 5

/-- The `for attempt in range(max_retries)` loop of
`convert_paper_to_steps`, recursing on the number of remaining iterations
(`remaining + attempt = max_retries`).  Each iteration applies the Gemini
throttle, makes one external call, and either returns the steps (after the
cache write), sleeps `retry_delay` and retries (transient error before the
last attempt), or raises.  Falling off the loop is the trailing
`return None`. -/
def steps_attempt_loop (gemini : String → Nat → SvcResult)
    (paper_text content_hash : String) :
    Nat → Nat → World → Except (GenException × World) (Option String × World)
  | 0, _, w => .ok (Option.none, w)
  | remaining + 1, attempt, w =>
    let w1 := rateLimitW "gemini" w
    let w2 := { w1 with geminiCalls := w1.geminiCalls + 1 }
    match gemini paper_text w1.geminiCalls with
    | .ok text =>
      .ok (some text, { w2 with db := save_cache w2.db content_hash "steps" text })
    | .internalServerError =>
      if attempt < max_retries - 1 then
        steps_attempt_loop gemini paper_text content_hash remaining (attempt + 1)
          (retrySleepW retry_delay w2)
      else
        .error (.internalServerError, w2)
    | .resourceExhausted => .error (.resourceExhausted, w2)
    | .otherError => .error (.other, w2)

/-- `convert_paper_to_steps(paper_text)`: check the steps cache by the
paper's fingerprint (Python truthiness: an empty cached string does not
count as a hit), else run the retry loop. -/
def convert_paper_to_steps (gemini : String → Nat → SvcResult)
    (md5 : String → String) (paper_text : String) (w : World) :
    Except (GenException × World) (Option String × World) :=
  let content_hash := get_content_hash md5 paper_text
  let cached_steps := load_cache w.db content_hash "steps"
  if truthyStr cached_steps then .ok (cached_steps, w)
  else steps_attempt_loop gemini paper_text content_hash max_retries 0 w

/-- Outcome of one Groq completion call; the source catches every exception
uniformly, so only success and failure are distinguished. -/
inductive GroqResult where
  | ok (text : String)
  | failed
  deriving Repr, DecidableEq

/-- `steps_to_code(steps)`: check the code cache by the fingerprint of the
steps text (Python truthiness again); on a miss make a single throttled
Groq call — any exception is caught and becomes `None`. -/
def steps_to_code (groq : String → Nat → GroqResult) (md5 : String → String)
    (steps : String) (w : World) : Option String × World :=
  let content_hash := get_content_hash md5 steps
  let cached_code := load_cache w.db content_hash "code"
  if truthyStr cached_code then (cached_code, w)
  else
    let w1 := rateLimitW "groq" w
    let w2 := { w1 with groqCalls := w1.groqCalls + 1 }
    match groq steps w1.groqCalls with
    | .ok generated_code =>
      (some generated_code,
        { w2 with db := save_cache w2.db content_hash "code" generated_code })
    | .failed => (Option.none, w2)

/-- `process_paper(content, generate_steps, generate_code)`: the
orchestrator of cached_code_generation.py.  Its outer `try` catches every
exception (in particular the ones raised by `convert_paper_to_steps`) and
returns `(None, None)`. -/
def process_paper (gemini : String → Nat → SvcResult)
    (groq : String → Nat → GroqResult) (md5 : String → String)
    (content : String) (generate_steps generate_code : Bool) (w : World) :
    (Option String × Option String) × World :=
  if generate_steps then
    match convert_paper_to_steps gemini md5 content w with
    | .error e => ((Option.none, Option.none), e.2)
    | .ok (Option.none, w1) => ((Option.none, Option.none), w1)
    | .ok (some steps, w1) =>
      if generate_code then
        match steps_to_code groq md5 steps w1 with
        | (Option.none, w2) => ((some steps, Option.none), w2)
        | (some code, w2) => ((some steps, some code), w2)
      else ((some steps, Option.none), w1)
  else
    let steps := content
    if generate_code then
      match steps_to_code groq md5 steps w with
      | (Option.none, w2) => ((some steps, Option.none), w2)
      | (some code, w2) => ((some steps, some code), w2)
    else ((some steps, Option.none), w)

/-- A Python value that can be stored in the `code` field of a file record
or returned in the `code` slot of the response: `None`, a string, or a
tuple (the resume path of app.py stores the whole tuple returned by
`process_paper`). -/
inductive PyVal where
  | none
  | str (s : String)
  | tup (fst snd : PyVal)
  deriving Repr, DecidableEq

/-- Embed an `Optional[str]` as a Python value. -/
def pyOfOpt : Option String → PyVal
  | Option.none => .none
  | some s => .str s

/-- Python truthiness of a `PyVal`: `None` and `""` are falsy, a non-empty
tuple is truthy. -/
def truthyPy : PyVal → Bool
  | .none => false
  | .str s => s != ""
  | .tup _ _ => true

/-- One document of the `files` collection of app.py. -/
structure FileRecord where
  filename : String
  content_hash : String
  steps : Option String
  code : PyVal
  deriving Repr, DecidableEq

/-- The `files` collection. -/
structure AppDB where
  files : List FileRecord
  deriving Repr, DecidableEq

/-- `files_collection.find_one({'content_hash': h})`. -/
def find_file (adb : AppDB) (content_hash : String) : Option FileRecord :=
  adb.files.find? (fun r => r.content_hash == content_hash)

/-- `files_collection.update_one({'_id': ...}, {'$set': {'code': c}})`,
modelled as updating the first record with the given content hash (the one
`find_one` returned). -/
def set_code_first : List FileRecord → String → PyVal → List FileRecord
  | [], _, _ => []
  | r :: rs, content_hash, c =>
    if r.content_hash == content_hash then { r with code := c } :: rs
    else r :: set_code_first rs content_hash c

/-- `filename.lower()`: character-wise lowering. -/
def str_to_lower (s : String) : String := String.mk (s.data.map Char.toLower)

/-- `filename.lower().endswith('.pdf')` from app.py, written over the
character list so that it evaluates. -/
def ends_with_pdf (filename : String) : Bool :=
  ".pdf".toList.isSuffixOf (str_to_lower filename).toList

/-- The value `process_file` produces: either a response dict with `steps`,
`code` and an optional `message`, or an error dict with an HTTP status. -/
inductive ProcResult where
  | ok (steps : PyVal) (code : PyVal) (message : Option String)
  | err (msg : String) (status : Nat)
  deriving Repr, DecidableEq

/-- The second half of the "# Process new file" tail of `process_file` in
app.py, after text extraction: run `process_paper` with both stages
enabled, fail if steps are `None`, otherwise insert the new record and
return steps and code. -/
def run_paper_pipeline (gemini : String → Nat → SvcResult)
    (groq : String → Nat → GroqResult) (md5 : String → String)
    (filename content_hash paper_content : String) (adb : AppDB) (w : World) :
    ProcResult × AppDB × World :=
  match process_paper gemini groq md5 paper_content true true w with
  | ((Option.none, _), w1) =>
    (.err "Failed to generate steps from the paper" 500, adb, w1)
  | ((some steps, code), w1) =>
    let record : FileRecord := ⟨filename, content_hash, some steps, pyOfOpt code⟩
    (.ok (.str steps) (pyOfOpt code) Option.none,
      ⟨adb.files ++ [record]⟩, w1)

/-- The "# Process new file" tail of `process_file` in app.py: extract text
(PDF extraction is an external collaborator modelled as a parameter), then
run the pipeline on the extracted (or decoded) text. -/
def process_new_file (gemini : String → Nat → SvcResult)
    (groq : String → Nat → GroqResult) (md5 : String → String)
    (extract_pdf : String → Option String)
    (file_content filename content_hash : String) (adb : AppDB) (w : World) :
    ProcResult × AppDB × World :=
  if ends_with_pdf filename then
    match extract_pdf file_content with
    | Option.none => (.err "Failed to extract text from PDF" 500, adb, w)
    | some paper_content =>
      run_paper_pipeline gemini groq md5 filename content_hash paper_content adb w
  else
    run_paper_pipeline gemini groq md5 filename content_hash file_content adb w

/-- `process_file(file_content, filename)` from app.py.  Note the resume
branch: the source binds `code = process_paper(existing_file['steps'],
generate_steps=False)` — the entire `(steps, code)` tuple — and stores and
returns that tuple as the `code` value. -/
def process_file (gemini : String → Nat → SvcResult)
    (groq : String → Nat → GroqResult) (md5 : String → String)
    (extract_pdf : String → Option String)
    (file_content filename : String) (adb : AppDB) (w : World) :
    ProcResult × AppDB × World :=
  let content_hash := get_content_hash md5 file_content
  match find_file adb content_hash with
  | some existing_file =>
    if truthyStr existing_file.steps && truthyPy existing_file.code then
      (.ok (pyOfOpt existing_file.steps) existing_file.code
        (some "File has been processed before. Returning existing results."),
        adb, w)
    else if truthyStr existing_file.steps then
      let code :=
        process_paper gemini groq md5 (existing_file.steps.getD "") false true w
      let stored := PyVal.tup (pyOfOpt code.1.1) (pyOfOpt code.1.2)
      (.ok (pyOfOpt existing_file.steps) stored
        (some "Steps existed. Generated new code."),
        ⟨set_code_first adb.files existing_file.content_hash stored⟩, code.2)
    else
      process_new_file gemini groq md5 extract_pdf file_content filename
        content_hash adb w
  | Option.none =>
    process_new_file gemini groq md5 extract_pdf file_content filename
      content_hash adb w

/-- The error component of a `convert_paper_to_steps` outcome. -/
def stepsErr : Except (GenException × World) (Option String × World) →
    Option GenException
  | .ok _ => Option.none
  | .error e => some e.1

/-- The final world of a `convert_paper_to_steps` outcome (whether it
returned or raised). -/
def stepsWorld : Except (GenException × World) (Option String × World) → World
  | .ok r => r.2
  | .error e => e.2

/-- A convenient small starting world: empty healthy cache, both
last-request timestamps at 0, clock at 100, no calls made yet. -/
def W0 : World := ⟨⟨[], false⟩, ⟨0, 0⟩, 100, 0, 0, []⟩

/-- The world transformation of one failed gemini attempt that will be
retried: throttle, one call, then `time.sleep(retry_delay)`. -/
def gemFailStep (v : World) : World :=
  retrySleepW retry_delay
    { rateLimitW "gemini" v with
        geminiCalls := (rateLimitW "gemini" v).geminiCalls + 1 }

/-- The world transformation of the last gemini attempt before the
exception propagates: throttle and one call, no further sleep. -/
def gemFinal (v : World) : World :=
  { rateLimitW "gemini" v with
      geminiCalls := (rateLimitW "gemini" v).geminiCalls + 1 }

/-- With no record stored for the content's hash, `process_file` runs the
fresh-processing tail. -/
lemma process_file_fresh (gemini : String → Nat → SvcResult)
    (groq : String → Nat → GroqResult) (md5 : String → String)
    (extract_pdf : String → Option String)
    (file_content filename : String) (adb : AppDB) (w : World)
    (hfind : find_file adb (get_content_hash md5 file_content) = Option.none) :
    process_file gemini groq md5 extract_pdf file_content filename adb w =
      process_new_file gemini groq md5 extract_pdf file_content filename
        (get_content_hash md5 file_content) adb w := by
  simp only [process_file, hfind]

/-- For a non-PDF upload, the fresh-processing tail runs the pipeline
directly on the decoded file content. -/
lemma process_new_file_not_pdf (gemini : String → Nat → SvcResult)
    (groq : String → Nat → GroqResult) (md5 : String → String)
    (extract_pdf : String → Option String)
    (file_content filename content_hash : String) (adb : AppDB) (w : World)
    (hpdf : ends_with_pdf filename = false) :
    process_new_file gemini groq md5 extract_pdf file_content filename
        content_hash adb w =
      run_paper_pipeline gemini groq md5 filename content_hash file_content
        adb w := by
  simp only [process_new_file, hpdf, Bool.false_eq_true, if_false]

/-- When steps generation fails, the pipeline surfaces the steps-stage
error and stores nothing. -/
lemma run_paper_pipeline_steps_none (gemini : String → Nat → SvcResult)
    (groq : String → Nat → GroqResult) (md5 : String → String)
    (filename content_hash paper_content : String) (adb : AppDB) (w w1 : World)
    (c : Option String)
    (hpp : process_paper gemini groq md5 paper_content true true w =
      ((Option.none, c), w1)) :
    run_paper_pipeline gemini groq md5 filename content_hash paper_content
        adb w =
      (.err "Failed to generate steps from the paper" 500, adb, w1) := by
  simp only [run_paper_pipeline, hpp]

/-- When steps generation succeeds, the pipeline inserts the new record and
returns the steps and the (possibly absent) code. -/
lemma run_paper_pipeline_steps_some (gemini : String → Nat → SvcResult)
    (groq : String → Nat → GroqResult) (md5 : String → String)
    (filename content_hash paper_content : String) (adb : AppDB) (w w1 : World)
    (s : String) (c : Option String)
    (hpp : process_paper gemini groq md5 paper_content true true w =
      ((some s, c), w1)) :
    run_paper_pipeline gemini groq md5 filename content_hash paper_content
        adb w =
      (.ok (.str s) (pyOfOpt c) Option.none,
        ⟨adb.files ++ [⟨filename, content_hash, some s, pyOfOpt c⟩]⟩, w1) := by
  simp only [run_paper_pipeline, hpp]

/-- C10: for any service identifier other than the two configured services
"gemini" and "groq", `rate_limit` returns immediately (zero sleep) and
leaves both last-request timestamps unchanged (the source only logs a
warning in that branch). -/
theorem c10_unknown_service_noop (api : String) (t : ℚ) (s : RateState)
    (h1 : api ≠ "gemini") (h2 : api ≠ "groq") :
    rate_limit api t s = (0, s) := by
  simp [rate_limit, h1, h2]

/-- C10 witness: acquiring for service "openai" at time 100 with both
timestamps at 3 and 7 sleeps 0 and changes nothing. -/
theorem c10_unknown_service_noop_witness :
    ("openai" : String) ≠ "gemini" ∧ ("openai" : String) ≠ "groq" ∧
      rate_limit "openai" 100 ⟨3, 7⟩ = (0, ⟨3, 7⟩) :=
  ⟨by decide, by decide,
    c10_unknown_service_noop "openai" 100 ⟨3, 7⟩ (by decide) (by decide)⟩

/-- C6: the throttle floor for the two configured services (gemini at
`GEMINI_RATE_LIMIT = 15` requests/minute, groq at `GROQ_RATE_LIMIT = 30`).
When a call arrives within the minimum interval `60 / N` of the service's
last request, the caller is suspended for exactly the remaining delta, the
new timestamp is the moment of return (`t` + sleep), and consecutive
returns are therefore spaced at least `60 / N` apart (this spacing bound is
stated unconditionally of the hypotheses via the recorded timestamps).
Acquiring one service never moves the other service's timestamp, and the
sleep and new timestamp of a groq acquire depend only on the groq
timestamp, never on the gemini one. -/
theorem c6_throttle_floor (t : ℚ) (s s₂ : RateState)
    (hg : t - s.last_gemini_request < 60 / GEMINI_RATE_LIMIT)
    (hq : t - s.last_groq_request < 60 / GROQ_RATE_LIMIT)
    (hsame : s.last_groq_request = s₂.last_groq_request) :
    (rate_limit "gemini" t s).1 =
        60 / GEMINI_RATE_LIMIT - (t - s.last_gemini_request) ∧
      (rate_limit "gemini" t s).2.last_gemini_request =
        t + (rate_limit "gemini" t s).1 ∧
      s.last_gemini_request + 60 / GEMINI_RATE_LIMIT ≤
        (rate_limit "gemini" t s).2.last_gemini_request ∧
      (rate_limit "gemini" t s).2.last_groq_request = s.last_groq_request ∧
      (rate_limit "groq" t s).1 =
        60 / GROQ_RATE_LIMIT - (t - s.last_groq_request) ∧
      (rate_limit "groq" t s).2.last_groq_request =
        t + (rate_limit "groq" t s).1 ∧
      s.last_groq_request + 60 / GROQ_RATE_LIMIT ≤
        (rate_limit "groq" t s).2.last_groq_request ∧
      (rate_limit "groq" t s).2.last_gemini_request = s.last_gemini_request ∧
      (rate_limit "groq" t s).1 = (rate_limit "groq" t s₂).1 ∧
      (rate_limit "groq" t s).2.last_groq_request =
        (rate_limit "groq" t s₂).2.last_groq_request := by
  have hq₂ : t - s₂.last_groq_request < 60 / GROQ_RATE_LIMIT := by
    rw [← hsame]; exact hq
  have eg : rate_limit "gemini" t s =
      (60 / GEMINI_RATE_LIMIT - (t - s.last_gemini_request),
        ⟨t + (60 / GEMINI_RATE_LIMIT - (t - s.last_gemini_request)),
          s.last_groq_request⟩) := by
    unfold rate_limit
    rw [if_pos rfl, if_pos hg]
  have eq1 : rate_limit "groq" t s =
      (60 / GROQ_RATE_LIMIT - (t - s.last_groq_request),
        ⟨s.last_gemini_request,
          t + (60 / GROQ_RATE_LIMIT - (t - s.last_groq_request))⟩) := by
    unfold rate_limit
    rw [if_neg (by decide), if_pos rfl, if_pos hq]
  have eq2 : rate_limit "groq" t s₂ =
      (60 / GROQ_RATE_LIMIT - (t - s₂.last_groq_request),
        ⟨s₂.last_gemini_request,
          t + (60 / GROQ_RATE_LIMIT - (t - s₂.last_groq_request))⟩) := by
    unfold rate_limit
    rw [if_neg (by decide), if_pos rfl, if_pos hq₂]
  rw [eg, eq1, eq2]
  refine ⟨rfl, rfl, by dsimp only; linarith, rfl, rfl, rfl,
    by dsimp only; linarith, rfl, by rw [hsame], by rw [hsame]⟩

/-- C6 witness: a gemini acquire at time 1 with both timestamps at 0 is
within both minimum intervals, and is suspended for exactly
`60 / 15 - 1 = 3` time-units. -/
theorem c6_throttle_floor_witness :
    (1 : ℚ) - (RateState.mk 0 0).last_gemini_request < 60 / GEMINI_RATE_LIMIT ∧
      (1 : ℚ) - (RateState.mk 0 0).last_groq_request < 60 / GROQ_RATE_LIMIT ∧
      (rate_limit "gemini" 1 (RateState.mk 0 0)).1 = 3 := by
  have h := c6_throttle_floor 1 (RateState.mk 0 0) (RateState.mk 9 0)
    (by norm_num [GEMINI_RATE_LIMIT]) (by norm_num [GROQ_RATE_LIMIT]) rfl
  refine ⟨by norm_num [GEMINI_RATE_LIMIT], by norm_num [GROQ_RATE_LIMIT], ?_⟩
  rw [h.1]; norm_num [GEMINI_RATE_LIMIT]

/-- C5 (amended): a cache hit with a non-empty cached artifact is returned
as-is by the stage executor, with no external call, no throttle
acquisition, and no state change at all (the world is returned unchanged);
this holds for the steps executor (stage "steps" keyed by the paper's
fingerprint) and the code executor (stage "code" keyed by the steps'
fingerprint).  An empty-string artifact is excluded: Python truthiness
treats it as a miss (see the counterexample). -/
theorem c5_cache_hit_no_external_call (gemini : String → Nat → SvcResult)
    (groq : String → Nat → GroqResult) (md5 : String → String)
    (paper_text steps : String) (w : World) (v u : String)
    (hs : load_cache w.db (get_content_hash md5 paper_text) "steps" = some v)
    (hv : v ≠ "")
    (hc : load_cache w.db (get_content_hash md5 steps) "code" = some u)
    (hu : u ≠ "") :
    convert_paper_to_steps gemini md5 paper_text w = .ok (some v, w) ∧
      steps_to_code groq md5 steps w = (some u, w) := by
  constructor
  · simp only [convert_paper_to_steps, hs]
    simp [truthyStr, hv]
  · simp only [steps_to_code, hc]
    simp [truthyStr, hu]

/-- C5 witness: with the steps cache holding "S" for paper "p" and the code
cache holding "C" for steps "s" (md5 modelled as the identity), both
executors return the cached artifact with the world untouched. -/
theorem c5_cache_hit_no_external_call_witness :
    load_cache (CacheDB.mk [("p", "steps", "S"), ("s", "code", "C")] false)
        (get_content_hash (fun x => x) "p") "steps" = some "S" ∧
      load_cache (CacheDB.mk [("p", "steps", "S"), ("s", "code", "C")] false)
        (get_content_hash (fun x => x) "s") "code" = some "C" ∧
      convert_paper_to_steps (fun _ _ => SvcResult.ok "fresh") (fun x => x) "p"
          ⟨⟨[("p", "steps", "S"), ("s", "code", "C")], false⟩, ⟨0, 0⟩, 100, 0, 0, []⟩ =
        .ok (some "S",
          ⟨⟨[("p", "steps", "S"), ("s", "code", "C")], false⟩, ⟨0, 0⟩, 100, 0, 0, []⟩) ∧
      steps_to_code (fun _ _ => GroqResult.ok "fresh") (fun x => x) "s"
          ⟨⟨[("p", "steps", "S"), ("s", "code", "C")], false⟩, ⟨0, 0⟩, 100, 0, 0, []⟩ =
        (some "C",
          ⟨⟨[("p", "steps", "S"), ("s", "code", "C")], false⟩, ⟨0, 0⟩, 100, 0, 0, []⟩) := by
  have h := c5_cache_hit_no_external_call (fun _ _ => SvcResult.ok "fresh")
    (fun _ _ => GroqResult.ok "fresh") (fun x => x) "p" "s"
    ⟨⟨[("p", "steps", "S"), ("s", "code", "C")], false⟩, ⟨0, 0⟩, 100, 0, 0, []⟩
    "S" "C" (by decide) (by decide) (by decide) (by decide)
  exact ⟨by decide, by decide, h.1, h.2⟩

/-- C5 counterexample: the claim fails for an empty-string cached artifact.
With the steps cache holding `""` for paper "k", the executor does NOT
return the cached value: it makes an external call (the gemini call counter
rises from 0 to 1, and the gemini timestamp is consumed), regenerates, and
overwrites the entry — Python truthiness treats `""` as a miss. -/
theorem c5_empty_string_treated_as_miss :
    load_cache (CacheDB.mk [("k", "steps", "")] false)
        (get_content_hash (fun x => x) "k") "steps" = some "" ∧
      convert_paper_to_steps (fun _ _ => SvcResult.ok "X") (fun x => x) "k"
          ⟨⟨[("k", "steps", "")], false⟩, ⟨0, 0⟩, 100, 0, 0, []⟩ =
        .ok (some "X", ⟨⟨[("k", "steps", "X")], false⟩, ⟨100, 0⟩, 100, 1, 0, []⟩) := by
  constructor
  · decide
  · norm_num [convert_paper_to_steps, steps_attempt_loop, get_content_hash,
      load_cache, find_one, truthyStr, rateLimitW, rate_limit, save_cache,
      upsert_one, GEMINI_RATE_LIMIT, GROQ_RATE_LIMIT, max_retries, retry_delay]

/-- C7: when the underlying store is unavailable (every operation raises),
a Result Store read returns `None` — the same outcome as a cache miss — a
write is swallowed leaving the store unchanged, and the already-generated
artifact is still returned to the caller: `steps_to_code` on a failing
store regenerates via the external service and returns the generated code
even though neither the read nor the write could touch the store. -/
theorem c7_storage_failure_degrades (db : CacheDB) (h ty d : String)
    (groq : String → Nat → GroqResult) (md5 : String → String)
    (steps : String) (w : World) (c : String)
    (hf : db.failing = true) (hwf : w.db.failing = true)
    (hq : groq steps w.groqCalls = GroqResult.ok c) :
    load_cache db h ty = Option.none ∧
      save_cache db h ty d = db ∧
      (steps_to_code groq md5 steps w).1 = some c := by
  refine ⟨by simp [load_cache, hf], by simp [save_cache, hf], ?_⟩
  simp only [steps_to_code, load_cache, hwf, if_true, truthyStr]
  have hcalls : (rateLimitW "groq" w).groqCalls = w.groqCalls := rfl
  simp [rateLimitW, hcalls, hq]

/-- C7 witness: a failing store that actually holds an entry for the key
still reads as a miss, writes bounce, and the code executor returns the
freshly generated "C". -/
theorem c7_storage_failure_degrades_witness :
    (CacheDB.mk [("x", "steps", "S")] true).failing = true ∧
      load_cache (CacheDB.mk [("x", "steps", "S")] true) "x" "steps" = Option.none ∧
      save_cache (CacheDB.mk [("x", "steps", "S")] true) "x" "steps" "new" =
        CacheDB.mk [("x", "steps", "S")] true ∧
      (steps_to_code (fun _ _ => GroqResult.ok "C") (fun x => x) "s"
          ⟨⟨[("x", "steps", "S")], true⟩, ⟨0, 0⟩, 100, 0, 0, []⟩).1 = some "C" := by
  have h := c7_storage_failure_degrades (CacheDB.mk [("x", "steps", "S")] true)
    "x" "steps" "new" (fun _ _ => GroqResult.ok "C") (fun x => x) "s"
    ⟨⟨[("x", "steps", "S")], true⟩, ⟨0, 0⟩, 100, 0, 0, []⟩ "C" rfl rfl rfl
  exact ⟨rfl, h.1, h.2.1, h.2.2⟩

/-- C9: `process_paper` is total at its boundary (in this embedding it is a
total function into a pair of optional strings — every exception path of
the source is caught and becomes a value).  Moreover: any exception
escaping steps generation is caught by the outer handler and yields
`(None, None)` (with the world as it was at the raise), and when
`generate_steps` is false the first component of the result is exactly the
input content. -/
theorem c9_process_paper_boundary (gemini : String → Nat → SvcResult)
    (groq : String → Nat → GroqResult) (md5 : String → String)
    (content : String) (gc : Bool) (w : World) (e : GenException × World)
    (ha : convert_paper_to_steps gemini md5 content w = .error e) :
    process_paper gemini groq md5 content true gc w =
        ((Option.none, Option.none), e.2) ∧
      (process_paper gemini groq md5 content false gc w).1.1 = some content := by
  constructor
  · simp only [process_paper, if_true, ha]
  · rcases hsc : steps_to_code groq md5 content w with ⟨oc, w2⟩
    cases gc <;> cases oc <;> simp [process_paper, hsc]

/-- C9 witness: with a gemini stub that raises quota exhaustion, the
exception escapes steps generation and `process_paper` returns
`(None, None)`; with `generate_steps = False` the content is passed
through as the steps. -/
theorem c9_process_paper_boundary_witness :
    convert_paper_to_steps (fun _ _ => SvcResult.resourceExhausted)
        (fun x => x) "p" W0 =
      .error (GenException.resourceExhausted,
        ⟨⟨[], false⟩, ⟨100, 0⟩, 100, 1, 0, []⟩) ∧
    process_paper (fun _ _ => SvcResult.resourceExhausted)
        (fun _ _ => GroqResult.ok "C") (fun x => x) "p" true true W0 =
      ((Option.none, Option.none), ⟨⟨[], false⟩, ⟨100, 0⟩, 100, 1, 0, []⟩) ∧
    (process_paper (fun _ _ => SvcResult.resourceExhausted)
        (fun _ _ => GroqResult.ok "C") (fun x => x) "p" false true W0).1.1 =
      some "p" := by
  have ha : convert_paper_to_steps (fun _ _ => SvcResult.resourceExhausted)
      (fun x => x) "p" W0 =
      .error (GenException.resourceExhausted,
        ⟨⟨[], false⟩, ⟨100, 0⟩, 100, 1, 0, []⟩) := by
    norm_num [convert_paper_to_steps, steps_attempt_loop, get_content_hash,
      load_cache, find_one, truthyStr, rateLimitW, rate_limit,
      GEMINI_RATE_LIMIT, GROQ_RATE_LIMIT, max_retries, retry_delay, W0]
  have h := c9_process_paper_boundary (fun _ _ => SvcResult.resourceExhausted)
    (fun _ _ => GroqResult.ok "C") (fun x => x) "p" true W0
    (GenException.resourceExhausted, ⟨⟨[], false⟩, ⟨100, 0⟩, 100, 1, 0, []⟩) ha
  exact ⟨ha, h.1, h.2⟩

/-- C3: retry policy of the steps stage.  On a cache miss, if every gemini
call raises a transient internal server error the service is invoked
exactly 3 times (`max_retries`) with the fixed `retry_delay = 5` sleep
between consecutive attempts (two sleeps for three attempts), after which
the transient error propagates as fatal, and the pipeline surfaces the
failure naming the steps stage ("Failed to generate steps from the paper",
HTTP 500).  If instead every call raises resource exhaustion, the service
is invoked exactly once and the error propagates immediately with no retry
sleep. -/
theorem c3_steps_retry_policy (gemini gq : String → Nat → SvcResult)
    (groq : String → Nat → GroqResult) (md5 : String → String)
    (extract_pdf : String → Option String)
    (paper_text filename : String) (adb : AppDB) (w : World)
    (hmiss : truthyStr
      (load_cache w.db (get_content_hash md5 paper_text) "steps") = false)
    (hise : ∀ p n, gemini p n = SvcResult.internalServerError)
    (hre : ∀ p n, gq p n = SvcResult.resourceExhausted)
    (hfind : find_file adb (get_content_hash md5 paper_text) = Option.none)
    (hpdf : ends_with_pdf filename = false) :
    convert_paper_to_steps gemini md5 paper_text w =
        .error (GenException.internalServerError,
          gemFinal (gemFailStep (gemFailStep w))) ∧
      (gemFinal (gemFailStep (gemFailStep w))).geminiCalls =
        w.geminiCalls + 3 ∧
      (gemFinal (gemFailStep (gemFailStep w))).retrySleeps =
        w.retrySleeps ++ [retry_delay, retry_delay] ∧
      convert_paper_to_steps gq md5 paper_text w =
        .error (GenException.resourceExhausted, gemFinal w) ∧
      (gemFinal w).geminiCalls = w.geminiCalls + 1 ∧
      (gemFinal w).retrySleeps = w.retrySleeps ∧
      (process_file gemini groq md5 extract_pdf paper_text filename adb w).1 =
        .err "Failed to generate steps from the paper" 500 := by
  have e1 : ∀ v, steps_attempt_loop gemini paper_text
      (get_content_hash md5 paper_text) (2 + 1) 0 v =
      steps_attempt_loop gemini paper_text (get_content_hash md5 paper_text) 2 1
        (gemFailStep v) := by
    intro v
    simp only [steps_attempt_loop]
    rw [hise]
    dsimp only [gemFailStep]
    rw [if_pos (by norm_num [max_retries])]
  have e2 : ∀ v, steps_attempt_loop gemini paper_text
      (get_content_hash md5 paper_text) (1 + 1) 1 v =
      steps_attempt_loop gemini paper_text (get_content_hash md5 paper_text) 1 2
        (gemFailStep v) := by
    intro v
    simp only [steps_attempt_loop]
    rw [hise]
    dsimp only [gemFailStep]
    rw [if_pos (by norm_num [max_retries])]
  have e3 : ∀ v, steps_attempt_loop gemini paper_text
      (get_content_hash md5 paper_text) (0 + 1) 2 v =
      .error (GenException.internalServerError, gemFinal v) := by
    intro v
    simp only [steps_attempt_loop]
    rw [hise]
    dsimp only [gemFinal]
    rw [if_neg (by norm_num [max_retries])]
  have hl : steps_attempt_loop gemini paper_text
      (get_content_hash md5 paper_text) max_retries 0 w =
      .error (GenException.internalServerError,
        gemFinal (gemFailStep (gemFailStep w))) := by
    have b1 := e1 w
    have b2 := e2 (gemFailStep w)
    have b3 := e3 (gemFailStep (gemFailStep w))
    exact (b1.trans b2).trans b3
  have cv : convert_paper_to_steps gemini md5 paper_text w =
      .error (GenException.internalServerError,
        gemFinal (gemFailStep (gemFailStep w))) := by
    simp only [convert_paper_to_steps, hmiss, Bool.false_eq_true, if_false]
    exact hl
  have r1 : steps_attempt_loop gq paper_text
      (get_content_hash md5 paper_text) (2 + 1) 0 w =
      .error (GenException.resourceExhausted, gemFinal w) := by
    simp only [steps_attempt_loop]
    rw [hre]
    dsimp only [gemFinal]
  have cv2 : convert_paper_to_steps gq md5 paper_text w =
      .error (GenException.resourceExhausted, gemFinal w) := by
    simp only [convert_paper_to_steps, hmiss, Bool.false_eq_true, if_false]
    exact r1
  have pp : process_paper gemini groq md5 paper_text true true w =
      ((Option.none, Option.none), gemFinal (gemFailStep (gemFailStep w))) := by
    simp only [process_paper, if_true, cv]
  refine ⟨cv, ?_, ?_, cv2, ?_, ?_, ?_⟩
  · simp [gemFinal, gemFailStep, rateLimitW, retrySleepW]
  · simp [gemFinal, gemFailStep, rateLimitW, retrySleepW]
  · simp [gemFinal, rateLimitW]
  · simp [gemFinal, rateLimitW]
  · rw [process_file_fresh gemini groq md5 extract_pdf paper_text filename adb w
        hfind,
      process_new_file_not_pdf gemini groq md5 extract_pdf paper_text filename
        (get_content_hash md5 paper_text) adb w hpdf,
      run_paper_pipeline_steps_none gemini groq md5 filename
        (get_content_hash md5 paper_text) paper_text adb w
        (gemFinal (gemFailStep (gemFailStep w))) Option.none pp]

/-- C3 witness: from the empty cache, a gemini stub always raising the
transient error is called exactly 3 times with the two `retry_delay`
sleeps in between and the error then propagates; a quota-exhaustion stub
propagates at once; the app surfaces "Failed to generate steps from the
paper" with status 500. -/
theorem c3_steps_retry_policy_witness :
    truthyStr (load_cache W0.db (get_content_hash (fun x => x) "p") "steps") =
        false ∧
      convert_paper_to_steps (fun _ _ => SvcResult.internalServerError)
          (fun x => x) "p" W0 =
        .error (GenException.internalServerError,
          gemFinal (gemFailStep (gemFailStep W0))) ∧
      (gemFinal (gemFailStep (gemFailStep W0))).geminiCalls = 3 ∧
      (gemFinal (gemFailStep (gemFailStep W0))).retrySleeps =
        [retry_delay, retry_delay] ∧
      convert_paper_to_steps (fun _ _ => SvcResult.resourceExhausted)
          (fun x => x) "p" W0 =
        .error (GenException.resourceExhausted, gemFinal W0) ∧
      (process_file (fun _ _ => SvcResult.internalServerError)
          (fun _ _ => GroqResult.ok "C") (fun x => x) (fun _ => Option.none)
          "p" "f.txt" ⟨[]⟩ W0).1 =
        .err "Failed to generate steps from the paper" 500 := by
  have h := c3_steps_retry_policy (fun _ _ => SvcResult.internalServerError)
    (fun _ _ => SvcResult.resourceExhausted) (fun _ _ => GroqResult.ok "C")
    (fun x => x) (fun _ => Option.none) "p" "f.txt" ⟨[]⟩ W0 (by decide)
    (fun _ _ => rfl) (fun _ _ => rfl) (by decide) (by decide)
  refine ⟨by decide, h.1, ?_, ?_, h.2.2.2.1, h.2.2.2.2.2.2⟩
  · rw [h.2.1]
    decide
  · rw [h.2.2.1]
    simp [W0]

/-- C4 (amended): when a fresh upload's steps generation succeeds and its
code generation fails, `process_file` returns the generated steps together
with an absent (`None`) code and no message — a partial-success terminal
outcome (an `ok` response, not the `err` whole-pipeline failure).  No error
indicator scoped to the code stage is present anywhere in the response (see
the counterexample): the code stage's failure is visible only as the
absent code. -/
theorem c4_code_failure_partial_success (gemini : String → Nat → SvcResult)
    (groq : String → Nat → GroqResult) (md5 : String → String)
    (extract_pdf : String → Option String) (content filename s : String)
    (adb : AppDB) (w w1 : World)
    (hfresh : find_file adb (get_content_hash md5 content) = Option.none)
    (hpdf : ends_with_pdf filename = false)
    (hpp : process_paper gemini groq md5 content true true w =
      ((some s, Option.none), w1)) :
    process_file gemini groq md5 extract_pdf content filename adb w =
      (.ok (.str s) PyVal.none Option.none,
        ⟨adb.files ++
          [⟨filename, get_content_hash md5 content, some s, PyVal.none⟩]⟩,
        w1) := by
  rw [process_file_fresh gemini groq md5 extract_pdf content filename adb w
      hfresh,
    process_new_file_not_pdf gemini groq md5 extract_pdf content filename
      (get_content_hash md5 content) adb w hpdf,
    run_paper_pipeline_steps_some gemini groq md5 filename
      (get_content_hash md5 content) content adb w w1 s Option.none hpp]
  rfl

/-- C4 witness: gemini stub returns steps "S", groq stub always fails; the
fresh upload of "p" yields the partial-success response. -/
theorem c4_code_failure_partial_success_witness :
    find_file (AppDB.mk []) (get_content_hash (fun x => x) "p") =
        Option.none ∧
      process_paper (fun _ _ => SvcResult.ok "S") (fun _ _ => GroqResult.failed)
          (fun x => x) "p" true true W0 =
        ((some "S", Option.none),
          ⟨⟨[("p", "steps", "S")], false⟩, ⟨100, 100⟩, 100, 1, 1, []⟩) ∧
      process_file (fun _ _ => SvcResult.ok "S") (fun _ _ => GroqResult.failed)
          (fun x => x) (fun _ => Option.none) "p" "f.txt" ⟨[]⟩ W0 =
        (.ok (.str "S") PyVal.none Option.none,
          ⟨[⟨"f.txt", "p", some "S", PyVal.none⟩]⟩,
          ⟨⟨[("p", "steps", "S")], false⟩, ⟨100, 100⟩, 100, 1, 1, []⟩) := by
  have hpp : process_paper (fun _ _ => SvcResult.ok "S")
      (fun _ _ => GroqResult.failed) (fun x => x) "p" true true W0 =
      ((some "S", Option.none),
        ⟨⟨[("p", "steps", "S")], false⟩, ⟨100, 100⟩, 100, 1, 1, []⟩) := by
    norm_num +decide [process_paper, convert_paper_to_steps, steps_attempt_loop,
      steps_to_code, get_content_hash, load_cache, find_one, truthyStr,
      rateLimitW, rate_limit, save_cache, upsert_one, retrySleepW,
      GEMINI_RATE_LIMIT, GROQ_RATE_LIMIT, max_retries, retry_delay, W0]
  have h := c4_code_failure_partial_success (fun _ _ => SvcResult.ok "S")
    (fun _ _ => GroqResult.failed) (fun x => x) (fun _ => Option.none)
    "p" "f.txt" "S" ⟨[]⟩ W0
    ⟨⟨[("p", "steps", "S")], false⟩, ⟨100, 100⟩, 100, 1, 1, []⟩
    (by decide) (by decide) hpp
  exact ⟨by decide, hpp, h⟩

/-- C4 counterexample to the claim as stated: for the same concrete run
(fresh content, steps succeed as "S", code stub always fails), the whole
response of `process_file` is `ok` with steps "S", code `None` and message
`None`, and the stored record likewise holds `code = None` — there is no
error indicator scoped to the code stage anywhere in the result; the claim
promises one. -/
theorem c4_no_code_stage_error_indicator :
    process_file (fun _ _ => SvcResult.ok "S") (fun _ _ => GroqResult.failed)
        (fun x => x) (fun _ => Option.none) "p" "f.txt" ⟨[]⟩ W0 =
      (.ok (.str "S") PyVal.none Option.none,
        ⟨[⟨"f.txt", "p", some "S", PyVal.none⟩]⟩,
        ⟨⟨[("p", "steps", "S")], false⟩, ⟨100, 100⟩, 100, 1, 1, []⟩) := by
  norm_num +decide [process_file, process_new_file, run_paper_pipeline, find_file,
    process_paper, convert_paper_to_steps, steps_attempt_loop, steps_to_code,
    get_content_hash, load_cache, find_one, truthyStr, truthyPy, pyOfOpt,
    rateLimitW, rate_limit, save_cache, upsert_one, retrySleepW,
    GEMINI_RATE_LIMIT, GROQ_RATE_LIMIT, max_retries, retry_delay, W0]

/-- C1: `process_file` on a record holding `steps` but no `code`: the app
binds the ENTIRE tuple returned by `process_paper(steps,
generate_steps=False)` to `code` (it forgets to unpack it), so the record's
`code` field and the response's `code` slot receive the pair
`(steps, code_text)` rather than the code text.  This concrete evaluation
shows it: the gemini stub is never consulted (geminiCalls stays 0 — only
the Code-Generator runs), the groq stub produces "C", yet the persisted and
returned value is the tuple `("S", "C")`, not `"C"`. -/
theorem c1_resume_stores_tuple_not_code_text :
    process_file (fun _ _ => SvcResult.ok "GS") (fun _ _ => GroqResult.ok "C")
        (fun x => x) (fun _ => Option.none) "P" "f.txt"
        ⟨[⟨"f.txt", "P", some "S", PyVal.none⟩]⟩ W0 =
      (.ok (.str "S") (PyVal.tup (.str "S") (.str "C"))
          (some "Steps existed. Generated new code."),
        ⟨[⟨"f.txt", "P", some "S", PyVal.tup (.str "S") (.str "C")⟩]⟩,
        ⟨⟨[("S", "code", "C")], false⟩, ⟨0, 100⟩, 100, 0, 1, []⟩) := by
  norm_num +decide [process_file, process_new_file, run_paper_pipeline,
    find_file, set_code_first, process_paper, convert_paper_to_steps,
    steps_attempt_loop, steps_to_code, get_content_hash, load_cache, find_one,
    truthyStr, truthyPy, pyOfOpt, rateLimitW, rate_limit, save_cache,
    upsert_one, retrySleepW, GEMINI_RATE_LIMIT, GROQ_RATE_LIMIT, max_retries,
    retry_delay, W0]

/-- Appending one record to a list in which nothing satisfies the predicate
makes `find?` return that record, provided it satisfies the predicate. -/
lemma find?_append_single {α : Type} (l : List α) (p : α → Bool) (a : α)
    (hn : l.find? p = Option.none) (ha : p a = true) :
    (l ++ [a]).find? p = some a := by
  induction l with
  | nil => simp [List.find?, ha]
  | cons x xs ih =>
    rw [List.cons_append]
    cases hx : p x with
    | true => simp [List.find?, hx] at hn
    | false =>
      simp only [List.find?, hx] at hn ⊢
      exact ih hn

/-- Inversion of the fresh-processing tail: if it returned an `ok` response
whose steps and code slots are both strings, then the inserted record holds
exactly those strings (and the message slot was empty). -/
lemma run_paper_pipeline_ok_inv (gemini : String → Nat → SvcResult)
    (groq : String → Nat → GroqResult) (md5 : String → String)
    (filename content_hash paper_content : String) (adb adb1 : AppDB)
    (w w1 : World) (s c : String) (m : Option String)
    (h : run_paper_pipeline gemini groq md5 filename content_hash
        paper_content adb w = (.ok (.str s) (.str c) m, adb1, w1)) :
    adb1 = ⟨adb.files ++ [⟨filename, content_hash, some s, .str c⟩]⟩ := by
  rcases hp : process_paper gemini groq md5 paper_content true true w
    with ⟨⟨os, oc⟩, wx⟩
  cases os with
  | none =>
    rw [run_paper_pipeline_steps_none gemini groq md5 filename content_hash
      paper_content adb w wx oc hp] at h
    simp at h
  | some st =>
    rw [run_paper_pipeline_steps_some gemini groq md5 filename content_hash
      paper_content adb w wx st oc hp] at h
    cases oc with
    | none => simp [pyOfOpt] at h
    | some c2 =>
      simp only [pyOfOpt, Prod.mk.injEq, ProcResult.ok.injEq,
        PyVal.str.injEq] at h
      obtain ⟨⟨hst, hc2, hm⟩, hadb, hw⟩ := h
      subst hst
      subst hc2
      exact hadb.symm

/-- C2 (amended): cache idempotence at the record level.  If content whose
fingerprint has no record yet is processed once and the run returns an `ok`
response whose steps and code are both NON-EMPTY strings, then processing
byte-identical content again returns exactly the same steps and code
together with the "File has been processed before. Returning existing
results." notice, and changes nothing: the record store and the whole
world — in particular both external-call counters — are returned untouched
(zero external calls, no throttle consumption).  The non-emptiness proviso
is forced by Python truthiness (see the counterexample): an empty stored
artifact makes the second run fall through to full reprocessing. -/
theorem c2_second_run_returns_cached (gemini : String → Nat → SvcResult)
    (groq : String → Nat → GroqResult) (md5 : String → String)
    (extract_pdf : String → Option String) (content filename : String)
    (adb adb1 : AppDB) (w w1 : World) (m : Option String) (s c : String)
    (hfind : find_file adb (get_content_hash md5 content) = Option.none)
    (hrun1 : process_file gemini groq md5 extract_pdf content filename adb w =
      (.ok (.str s) (.str c) m, adb1, w1))
    (hs : s ≠ "") (hc : c ≠ "") :
    process_file gemini groq md5 extract_pdf content filename adb1 w1 =
      (.ok (.str s) (.str c)
        (some "File has been processed before. Returning existing results."),
        adb1, w1) := by
  have h0 := hrun1
  rw [process_file_fresh gemini groq md5 extract_pdf content filename adb w
    hfind] at h0
  have main : ∀ pc : String,
      run_paper_pipeline gemini groq md5 filename
        (get_content_hash md5 content) pc adb w =
        (.ok (.str s) (.str c) m, adb1, w1) →
      process_file gemini groq md5 extract_pdf content filename adb1 w1 =
        (.ok (.str s) (.str c)
          (some "File has been processed before. Returning existing results."),
          adb1, w1) := by
    intro pc hrp
    have hadb : adb1 =
        ⟨adb.files ++
          [⟨filename, get_content_hash md5 content, some s, .str c⟩]⟩ :=
      run_paper_pipeline_ok_inv gemini groq md5 filename
        (get_content_hash md5 content) pc adb adb1 w w1 s c m hrp
    have hrec : find_file adb1 (get_content_hash md5 content) =
        some ⟨filename, get_content_hash md5 content, some s, .str c⟩ := by
      rw [hadb]
      unfold find_file at hfind ⊢
      exact find?_append_single _ _ _ hfind (by simp)
    simp only [process_file, hrec]
    simp [truthyStr, truthyPy, hs, hc, pyOfOpt]
  by_cases hpdf : ends_with_pdf filename = true
  · rw [process_new_file, if_pos hpdf] at h0
    rcases hx : extract_pdf content with _ | pc
    · rw [hx] at h0
      simp at h0
    · rw [hx] at h0
      exact main pc h0
  · have hpdf' : ends_with_pdf filename = false := by
      simpa using hpdf
    rw [process_new_file_not_pdf gemini groq md5 extract_pdf content filename
      (get_content_hash md5 content) adb w hpdf'] at h0
    exact main content h0

/-- C2 witness: a concrete first run on fresh content "p" (gemini stub
"S", groq stub "C") stores the record, and the second run returns the same
"S"/"C" with the previously-processed notice and the identical store and
world (both call counters still 1). -/
theorem c2_second_run_returns_cached_witness :
    find_file (AppDB.mk []) (get_content_hash (fun x => x) "p") =
        Option.none ∧
      process_file (fun _ _ => SvcResult.ok "S") (fun _ _ => GroqResult.ok "C")
          (fun x => x) (fun _ => Option.none) "p" "f.txt" ⟨[]⟩ W0 =
        (.ok (.str "S") (.str "C") Option.none,
          ⟨[⟨"f.txt", "p", some "S", .str "C"⟩]⟩,
          ⟨⟨[("p", "steps", "S"), ("S", "code", "C")], false⟩, ⟨100, 100⟩,
            100, 1, 1, []⟩) ∧
      process_file (fun _ _ => SvcResult.ok "S") (fun _ _ => GroqResult.ok "C")
          (fun x => x) (fun _ => Option.none) "p" "f.txt"
          ⟨[⟨"f.txt", "p", some "S", .str "C"⟩]⟩
          ⟨⟨[("p", "steps", "S"), ("S", "code", "C")], false⟩, ⟨100, 100⟩,
            100, 1, 1, []⟩ =
        (.ok (.str "S") (.str "C")
          (some "File has been processed before. Returning existing results."),
          ⟨[⟨"f.txt", "p", some "S", .str "C"⟩]⟩,
          ⟨⟨[("p", "steps", "S"), ("S", "code", "C")], false⟩, ⟨100, 100⟩,
            100, 1, 1, []⟩) := by
  have hrun1 : process_file (fun _ _ => SvcResult.ok "S")
      (fun _ _ => GroqResult.ok "C") (fun x => x) (fun _ => Option.none)
      "p" "f.txt" ⟨[]⟩ W0 =
      (.ok (.str "S") (.str "C") Option.none,
        ⟨[⟨"f.txt", "p", some "S", .str "C"⟩]⟩,
        ⟨⟨[("p", "steps", "S"), ("S", "code", "C")], false⟩, ⟨100, 100⟩,
          100, 1, 1, []⟩) := by
    norm_num +decide [process_file, process_new_file, run_paper_pipeline,
      find_file, process_paper, convert_paper_to_steps, steps_attempt_loop,
      steps_to_code, get_content_hash, load_cache, find_one, truthyStr,
      truthyPy, pyOfOpt, rateLimitW, rate_limit, save_cache, upsert_one,
      retrySleepW, GEMINI_RATE_LIMIT, GROQ_RATE_LIMIT, max_retries,
      retry_delay, W0]
  refine ⟨by decide, hrun1, ?_⟩
  exact c2_second_run_returns_cached (fun _ _ => SvcResult.ok "S")
    (fun _ _ => GroqResult.ok "C") (fun x => x) (fun _ => Option.none)
    "p" "f.txt" ⟨[]⟩ ⟨[⟨"f.txt", "p", some "S", .str "C"⟩]⟩ W0
    ⟨⟨[("p", "steps", "S"), ("S", "code", "C")], false⟩, ⟨100, 100⟩,
      100, 1, 1, []⟩ Option.none "S" "C" (by decide) hrun1 (by decide)
    (by decide)

/-- C2 counterexample to the claim as stated: with stubs whose outputs are
the EMPTY string, the first run succeeds and stores a record with both
fields populated (`steps = ""`, `code = ""`), yet the second run of the
byte-identical content does NOT return them with a notice and does NOT
make zero external calls: Python truthiness treats the stored `""` as
absent, so the app falls through to full reprocessing — both call counters
rise from 1 to 2, the response carries no message, and a duplicate record
is inserted. -/
theorem c2_empty_artifacts_reprocessed :
    process_file (fun _ _ => SvcResult.ok "") (fun _ _ => GroqResult.ok "")
        (fun x => x) (fun _ => Option.none) "p" "f.txt" ⟨[]⟩ W0 =
      (.ok (.str "") (.str "") Option.none,
        ⟨[⟨"f.txt", "p", some "", .str ""⟩]⟩,
        ⟨⟨[("p", "steps", ""), ("", "code", "")], false⟩, ⟨100, 100⟩,
          100, 1, 1, []⟩) ∧
    process_file (fun _ _ => SvcResult.ok "") (fun _ _ => GroqResult.ok "")
        (fun x => x) (fun _ => Option.none) "p" "f.txt"
        ⟨[⟨"f.txt", "p", some "", .str ""⟩]⟩
        ⟨⟨[("p", "steps", ""), ("", "code", "")], false⟩, ⟨100, 100⟩,
          100, 1, 1, []⟩ =
      (.ok (.str "") (.str "") Option.none,
        ⟨[⟨"f.txt", "p", some "", .str ""⟩, ⟨"f.txt", "p", some "", .str ""⟩]⟩,
        ⟨⟨[("p", "steps", ""), ("", "code", "")], false⟩, ⟨104, 104⟩,
          104, 2, 2, []⟩) := by
  constructor
  · norm_num +decide [process_file, process_new_file, run_paper_pipeline,
      find_file, process_paper, convert_paper_to_steps, steps_attempt_loop,
      steps_to_code, get_content_hash, load_cache, find_one, truthyStr,
      truthyPy, pyOfOpt, rateLimitW, rate_limit, save_cache, upsert_one,
      retrySleepW, GEMINI_RATE_LIMIT, GROQ_RATE_LIMIT, max_retries,
      retry_delay, W0]
  · norm_num +decide [process_file, process_new_file, run_paper_pipeline,
      find_file, process_paper, convert_paper_to_steps, steps_attempt_loop,
      steps_to_code, get_content_hash, load_cache, find_one, truthyStr,
      truthyPy, pyOfOpt, rateLimitW, rate_limit, save_cache, upsert_one,
      retrySleepW, GEMINI_RATE_LIMIT, GROQ_RATE_LIMIT, max_retries,
      retry_delay, W0]

/-- A cache write never changes the availability of the store. -/
lemma save_cache_failing (db : CacheDB) (h ty d : String) :
    (save_cache db h ty d).failing = db.failing := by
  by_cases hf : db.failing <;> simp [save_cache, hf]

/-- Upserting under one stage key does not disturb lookups under a
different stage. -/
lemma find?_upsert_ne (es : List (String × String × String))
    (h ty h2 ty2 d : String) (hne : ty ≠ ty2) :
    (upsert_one es h2 ty2 d).find? (fun e => e.1 == h && e.2.1 == ty) =
      es.find? (fun e => e.1 == h && e.2.1 == ty) := by
  have hne2 : (ty2 == ty) = false := by
    simp [Ne.symm hne]
  induction es with
  | nil =>
    simp [upsert_one, List.find?, hne2]
  | cons e es ih =>
    by_cases hk : (e.1 == h2 && e.2.1 == ty2) = true
    · have hty2 : e.2.1 = ty2 := by
        have := hk
        simp only [Bool.and_eq_true, beq_iff_eq] at this
        exact this.2
      have hpe : (e.1 == h && e.2.1 == ty) = false := by
        simp only [Bool.and_eq_false_iff]
        right
        simp [hty2, Ne.symm hne]
      simp only [upsert_one, hk, if_true, List.find?, hne2, Bool.and_false,
        hpe]
    · have hk' : (e.1 == h2 && e.2.1 == ty2) = false := by
        simpa using hk
      simp only [upsert_one, hk', Bool.false_eq_true, if_false]
      cases hpe : (e.1 == h && e.2.1 == ty) with
      | true => simp [List.find?, hpe]
      | false => simp [List.find?, hpe, ih]

/-- After upserting a key, looking that key up finds the new document. -/
lemma find?_upsert_self (es : List (String × String × String))
    (h ty d : String) :
    (upsert_one es h ty d).find? (fun e => e.1 == h && e.2.1 == ty) =
      some (h, ty, d) := by
  induction es with
  | nil => simp [upsert_one, List.find?]
  | cons e es ih =>
    by_cases hk : (e.1 == h && e.2.1 == ty) = true
    · simp [upsert_one, hk, List.find?]
    · have hk' : (e.1 == h && e.2.1 == ty) = false := by
        simpa using hk
      simp only [upsert_one, hk', Bool.false_eq_true, if_false, List.find?,
        ih]

/-- A cache write under one stage key leaves reads under a different stage
unchanged. -/
lemma load_cache_save_other (db : CacheDB) (h ty h2 ty2 d : String)
    (hne : ty ≠ ty2) :
    load_cache (save_cache db h2 ty2 d) h ty = load_cache db h ty := by
  by_cases hf : db.failing
  · simp [save_cache, hf]
  · simp [load_cache, save_cache, find_one, hf, find?_upsert_ne _ _ _ _ _ _
      hne]

/-- On a healthy store, a read after a write of the same key returns the
written value. -/
lemma load_cache_save_self (db : CacheDB) (h ty d : String)
    (hf : db.failing = false) :
    load_cache (save_cache db h ty d) h ty = some d := by
  simp [load_cache, save_cache, find_one, hf, find?_upsert_self]

/-- The steps retry loop never touches the groq call counter, the store's
availability, or any "code"-stage cache entry. -/
lemma steps_attempt_loop_preserves (gemini : String → Nat → SvcResult)
    (paper ch : String) :
    ∀ (r a : Nat) (v : World),
      (stepsWorld (steps_attempt_loop gemini paper ch r a v)).groqCalls =
          v.groqCalls ∧
        (stepsWorld (steps_attempt_loop gemini paper ch r a v)).db.failing =
          v.db.failing ∧
        ∀ h, load_cache
            (stepsWorld (steps_attempt_loop gemini paper ch r a v)).db h
            "code" =
          load_cache v.db h "code" := by
  intro r
  induction r with
  | zero =>
    intro a v
    simp [steps_attempt_loop, stepsWorld]
  | succ n ih =>
    intro a v
    simp only [steps_attempt_loop]
    rcases hg : gemini paper (rateLimitW "gemini" v).geminiCalls
      with txt | _ | _ | _
    · refine ⟨rfl, save_cache_failing _ _ _ _, fun h => ?_⟩
      exact load_cache_save_other _ h "code" ch "steps" txt (by decide)
    · by_cases ha : a < max_retries - 1
      · rw [if_pos ha]
        exact ih (a + 1)
          (retrySleepW retry_delay
            { rateLimitW "gemini" v with
                geminiCalls := (rateLimitW "gemini" v).geminiCalls + 1 })
      · rw [if_neg ha]
        exact ⟨rfl, rfl, fun h => rfl⟩
    · exact ⟨rfl, rfl, fun h => rfl⟩
    · exact ⟨rfl, rfl, fun h => rfl⟩

/-- The whole steps stage never touches the groq call counter, the store's
availability, or any "code"-stage cache entry. -/
lemma convert_paper_to_steps_preserves (gemini : String → Nat → SvcResult)
    (md5 : String → String) (p : String) (v : World) :
    (stepsWorld (convert_paper_to_steps gemini md5 p v)).groqCalls =
        v.groqCalls ∧
      (stepsWorld (convert_paper_to_steps gemini md5 p v)).db.failing =
        v.db.failing ∧
      ∀ h, load_cache
          (stepsWorld (convert_paper_to_steps gemini md5 p v)).db h "code" =
        load_cache v.db h "code" := by
  cases htv : truthyStr
      (load_cache v.db (get_content_hash md5 p) "steps") with
  | true =>
    simp only [convert_paper_to_steps, htv, if_true, stepsWorld]
    simp
  | false =>
    simp only [convert_paper_to_steps, htv, Bool.false_eq_true, if_false]
    exact steps_attempt_loop_preserves gemini p
      (get_content_hash md5 p) max_retries 0 v

/-- If the code stage succeeds on a healthy store, the returned code is
stored (or already was) under the fingerprint of the steps text, and the
store stays healthy. -/
lemma steps_to_code_success_cached (groq : String → Nat → GroqResult)
    (md5 : String → String) (S : String) (v v2 : World) (c : String)
    (hf : v.db.failing = false)
    (h : steps_to_code groq md5 S v = (some c, v2)) :
    load_cache v2.db (get_content_hash md5 S) "code" = some c ∧
      v2.db.failing = false := by
  cases htv : truthyStr
      (load_cache v.db (get_content_hash md5 S) "code") with
  | true =>
    simp only [steps_to_code, htv, if_true] at h
    have h1 : load_cache v.db (get_content_hash md5 S) "code" = some c :=
      congrArg Prod.fst h
    have h2 : v = v2 := congrArg Prod.snd h
    subst h2
    exact ⟨h1, hf⟩
  | false =>
    simp only [steps_to_code, htv, Bool.false_eq_true, if_false] at h
    rcases hg : groq S (rateLimitW "groq" v).groqCalls with t | _
    · rw [hg] at h
      dsimp only at h
      injection h with h1 h2
      injection h1 with h1'
      subst h1'
      subst h2
      refine ⟨load_cache_save_self _ _ _ _ hf, ?_⟩
      show (save_cache (rateLimitW "groq" v).db (get_content_hash md5 S)
        "code" t).failing = false
      rw [save_cache_failing]
      exact hf
    · rw [hg] at h
      simp at h

/-- C8 (amended): the code stage's cache key is the fingerprint of the
steps text, not of the original paper.  If processing paper `p1` once (on a
healthy store) produced steps `S` and NON-EMPTY code `C`, and processing a
DIFFERENT paper `p2` reaches a steps stage that yields the identical steps
text `S`, then the second run's code stage consults the same cache entry
(keyed by the fingerprint of `S`), hits it, returns the same `C`, and makes
no external code-service call (the groq counter after the full second run
equals its value before it).  The non-emptiness of `C` is forced by Python
truthiness (see the counterexample): an empty cached code is treated as a
miss and regenerated. -/
theorem c8_code_cache_keyed_on_steps_text (gemini : String → Nat → SvcResult)
    (groq : String → Nat → GroqResult) (md5 : String → String)
    (p1 p2 S C : String) (w w1 w1' : World)
    (hne : p1 ≠ p2)
    (hfail : w.db.failing = false)
    (hrun1 : process_paper gemini groq md5 p1 true true w =
      ((some S, some C), w1))
    (hC : C ≠ "")
    (hsteps2 : convert_paper_to_steps gemini md5 p2 w1 = .ok (some S, w1')) :
    process_paper gemini groq md5 p2 true true w1 =
        ((some S, some C), w1') ∧
      w1'.groqCalls = w1.groqCalls := by
  have hinv : load_cache w1.db (get_content_hash md5 S) "code" = some C ∧
      w1.db.failing = false := by
    rcases hcv : convert_paper_to_steps gemini md5 p1 w with e | ⟨os, wa⟩
    · simp only [process_paper, if_true, hcv] at hrun1
      simp at hrun1
    · cases os with
      | none =>
        simp only [process_paper, if_true, hcv] at hrun1
        simp at hrun1
      | some st =>
        simp only [process_paper, if_true, hcv] at hrun1
        rcases hsc : steps_to_code groq md5 st wa with ⟨oc, wb⟩
        rw [hsc] at hrun1
        cases oc with
        | none => simp at hrun1
        | some c2 =>
          simp only [Prod.mk.injEq, Option.some.injEq] at hrun1
          obtain ⟨⟨hst, hc2⟩, hw⟩ := hrun1
          subst hst
          subst hc2
          subst hw
          have hwa := (convert_paper_to_steps_preserves gemini md5 p1 w).2.1
          rw [hcv] at hwa
          simp only [stepsWorld] at hwa
          exact steps_to_code_success_cached groq md5 st wa wb c2
            (hwa.trans hfail) hsc
  obtain ⟨hload1, hfail1⟩ := hinv
  have hp2 := convert_paper_to_steps_preserves gemini md5 p2 w1
  rw [hsteps2] at hp2
  simp only [stepsWorld] at hp2
  obtain ⟨hgq, hfl, hld⟩ := hp2
  have hload2 : load_cache w1'.db (get_content_hash md5 S) "code" =
      some C := by
    rw [hld]
    exact hload1
  have hhit : steps_to_code groq md5 S w1' = (some C, w1') := by
    simp only [steps_to_code, hload2]
    simp [truthyStr, hC]
  constructor
  · simp only [process_paper, if_true, hsteps2, hhit]
  · exact hgq

/-- C8 witness: papers "a" and "b" both yield steps "S"; the first run
caches code "C" under the fingerprint of "S"; the second run's steps stage
regenerates steps for "b", and its code stage then hits the shared entry:
the full second run returns the same "S"/"C" and the groq counter stays at
1. -/
theorem c8_code_cache_keyed_on_steps_text_witness :
    process_paper (fun _ _ => SvcResult.ok "S") (fun _ _ => GroqResult.ok "C")
        (fun x => x) "a" true true W0 =
      ((some "S", some "C"),
        ⟨⟨[("a", "steps", "S"), ("S", "code", "C")], false⟩, ⟨100, 100⟩,
          100, 1, 1, []⟩) ∧
    convert_paper_to_steps (fun _ _ => SvcResult.ok "S") (fun x => x) "b"
        ⟨⟨[("a", "steps", "S"), ("S", "code", "C")], false⟩, ⟨100, 100⟩,
          100, 1, 1, []⟩ =
      .ok (some "S",
        ⟨⟨[("a", "steps", "S"), ("S", "code", "C"), ("b", "steps", "S")],
          false⟩, ⟨104, 100⟩, 104, 2, 1, []⟩) ∧
    process_paper (fun _ _ => SvcResult.ok "S") (fun _ _ => GroqResult.ok "C")
        (fun x => x) "b" true true
        ⟨⟨[("a", "steps", "S"), ("S", "code", "C")], false⟩, ⟨100, 100⟩,
          100, 1, 1, []⟩ =
      ((some "S", some "C"),
        ⟨⟨[("a", "steps", "S"), ("S", "code", "C"), ("b", "steps", "S")],
          false⟩, ⟨104, 100⟩, 104, 2, 1, []⟩) ∧
    (⟨⟨[("a", "steps", "S"), ("S", "code", "C"), ("b", "steps", "S")],
        false⟩, ⟨104, 100⟩, 104, 2, 1, []⟩ : World).groqCalls =
      (⟨⟨[("a", "steps", "S"), ("S", "code", "C")], false⟩, ⟨100, 100⟩,
        100, 1, 1, []⟩ : World).groqCalls := by
  have hrun1 : process_paper (fun _ _ => SvcResult.ok "S")
      (fun _ _ => GroqResult.ok "C") (fun x => x) "a" true true W0 =
      ((some "S", some "C"),
        ⟨⟨[("a", "steps", "S"), ("S", "code", "C")], false⟩, ⟨100, 100⟩,
          100, 1, 1, []⟩) := by
    norm_num +decide [process_paper, convert_paper_to_steps,
      steps_attempt_loop, steps_to_code, get_content_hash, load_cache,
      find_one, truthyStr, rateLimitW, rate_limit, save_cache, upsert_one,
      retrySleepW, GEMINI_RATE_LIMIT, GROQ_RATE_LIMIT, max_retries,
      retry_delay, W0]
  have hsteps2 : convert_paper_to_steps (fun _ _ => SvcResult.ok "S")
      (fun x => x) "b"
      ⟨⟨[("a", "steps", "S"), ("S", "code", "C")], false⟩, ⟨100, 100⟩,
        100, 1, 1, []⟩ =
      .ok (some "S",
        ⟨⟨[("a", "steps", "S"), ("S", "code", "C"), ("b", "steps", "S")],
          false⟩, ⟨104, 100⟩, 104, 2, 1, []⟩) := by
    norm_num +decide [convert_paper_to_steps, steps_attempt_loop,
      get_content_hash, load_cache, find_one, truthyStr, rateLimitW,
      rate_limit, save_cache, upsert_one, retrySleepW, GEMINI_RATE_LIMIT,
      GROQ_RATE_LIMIT, max_retries, retry_delay]
  have h := c8_code_cache_keyed_on_steps_text
    (fun _ _ => SvcResult.ok "S") (fun _ _ => GroqResult.ok "C") (fun x => x)
    "a" "b" "S" "C" W0
    ⟨⟨[("a", "steps", "S"), ("S", "code", "C")], false⟩, ⟨100, 100⟩,
      100, 1, 1, []⟩
    ⟨⟨[("a", "steps", "S"), ("S", "code", "C"), ("b", "steps", "S")],
      false⟩, ⟨104, 100⟩, 104, 2, 1, []⟩
    (by decide) rfl hrun1 (by decide) hsteps2
  exact ⟨hrun1, hsteps2, h.1, h.2⟩

/-- C8 counterexample to the claim as stated: when the code produced for
the shared steps text is the EMPTY string, the second run is NOT a cache
hit.  Papers "a" and "b" both yield steps "S"; the first run stores code
`""` under the fingerprint of "S"; the second run's code stage reads the
entry, treats `""` as a miss (Python truthiness) and calls the external
code service again: the groq counter rises from 1 to 2. -/
theorem c8_empty_code_not_a_cache_hit :
    process_paper (fun _ _ => SvcResult.ok "S") (fun _ _ => GroqResult.ok "")
        (fun x => x) "a" true true W0 =
      ((some "S", some ""),
        ⟨⟨[("a", "steps", "S"), ("S", "code", "")], false⟩, ⟨100, 100⟩,
          100, 1, 1, []⟩) ∧
    process_paper (fun _ _ => SvcResult.ok "S") (fun _ _ => GroqResult.ok "")
        (fun x => x) "b" true true
        ⟨⟨[("a", "steps", "S"), ("S", "code", "")], false⟩, ⟨100, 100⟩,
          100, 1, 1, []⟩ =
      ((some "S", some ""),
        ⟨⟨[("a", "steps", "S"), ("S", "code", ""), ("b", "steps", "S")],
          false⟩, ⟨104, 104⟩, 104, 2, 2, []⟩) := by
  constructor
  · norm_num +decide [process_paper, convert_paper_to_steps,
      steps_attempt_loop, steps_to_code, get_content_hash, load_cache,
      find_one, truthyStr, rateLimitW, rate_limit, save_cache, upsert_one,
      retrySleepW, GEMINI_RATE_LIMIT, GROQ_RATE_LIMIT, max_retries,
      retry_delay, W0]
  · norm_num +decide [process_paper, convert_paper_to_steps,
      steps_attempt_loop, steps_to_code, get_content_hash, load_cache,
      find_one, truthyStr, rateLimitW, rate_limit, save_cache, upsert_one,
      retrySleepW, GEMINI_RATE_LIMIT, GROQ_RATE_LIMIT, max_retries,
      retry_delay, W0]
